import Mathlib

/-! Shallow embedding of the chatserver backend (Express + Mongoose + JWT).

Each HTTP handler of `src/controllers/userControllers.js` and the chat
controller is modelled as a pure function from the persistent store and the
request inputs to the updated store and the response sent.  The document
store is a triple of lists; `Option` and `Except` model nullable query
results and thrown exceptions; collaborator outcomes (the random OTP, the
email-delivery result, the current time) are explicit parameters. -/

namespace ChatServer

/-- User document (`models/User.js`): only the email is ever set by the
controllers, plus the store-assigned id. -/
structure User where
  _id : Nat
  email : String
deriving DecidableEq, Repr

/-- Chat document: `user` is the owner's id, `latestMessage` is denormalised
from the last appended question (absent on a fresh chat), `createdAt` is the
creation timestamp used by the `.sort({ createdAt: -1 })` listing. -/
structure Chat where
  _id : Nat
  user : Nat
  latestMessage : Option String
  createdAt : Nat
deriving DecidableEq, Repr

/-- Conversation document: one question/answer turn referencing a Chat. -/
structure Conversation where
  _id : Nat
  chat : Nat
  question : String
  answer : String
deriving DecidableEq, Repr

/-- The document store backing all handlers. -/
structure Store where
  users : List User
  chats : List Chat
  conversations : List Conversation
deriving DecidableEq, Repr

/-- Payload signed into the 5-minute verification token by `loginUser`:
the full user document and the OTP (`jwt.sign({ user, otp }, ...)`). -/
structure VerifyPayload where
  user : User
  otp : Nat
deriving DecidableEq, Repr

/-- A signed verification token: payload plus issue time (seconds) and the
key it was signed with.  `expiresIn: "5m"` fixes expiry 300 seconds after
issuance. -/
structure VerifyToken where
  payload : VerifyPayload
  issuedAt : Nat
  signedWith : String
deriving DecidableEq, Repr

/-- Session token signed by `verifyUser`:
`jwt.sign({ _id: verify.user._id }, Jwt_sec, { expiresIn: "5d" })`. -/
structure SessionToken where
  _id : Nat
  issuedAt : Nat
  signedWith : String
deriving DecidableEq, Repr

/-- Model of `jwt.verify(token, key)` evaluated at time `now`: it throws
(modelled as `.error` carrying the library's message) when the signature
does not check against `key` or the token is past its 300-second validity
window, and otherwise returns the decoded payload. -/
def jwtVerify (t : VerifyToken) (key : String) (now : Nat) :
    Except String VerifyPayload :=
  if t.signedWith ≠ key then .error "invalid signature"
  else if t.issuedAt + 300 ≤ now then .error "jwt expired"
  else .ok t.payload

/-- Fresh document id assigned by the store on `create`: one larger than any
id already in use, so it collides with no existing document. -/
def freshId (ids : List Nat) : Nat := ids.foldr max 0 + 1

/-- Result of `User.findOne({ email })`: the first stored user with that
email, or `none` (mongoose `null`). -/
def findOneUserByEmail (s : Store) (email : String) : Option User :=
  s.users.find? (fun u => u.email == email)

/-- Responses the `loginUser` handler can send. -/
inductive LoginResp where
  /-- `res.json({ message: "Otp send to your mail", verifyToken })` -/
  | otpSent (verifyToken : VerifyToken)
  /-- the catch block: `res.status(500).json({ message: error.message })` -/
  | serverError (msg : String)
deriving DecidableEq, Repr

/-- `loginUser` (userControllers.js): find-or-create the user by email, sign
a 5-minute verification token over the user and the OTP, then send the OTP
by mail.  The OTP draw and the delivery outcome are parameters; when
`sendMail` fails it rethrows "Failed to send email via Brevo API", which the
catch block returns as a 500 — the user created above stays persisted. -/
def loginUser (s : Store) (email : String) (otp : Nat) (now : Nat)
    (activationSec : String) (mailDelivered : Bool) : Store × LoginResp :=
  let found := findOneUserByEmail s email
  let user : User :=
    match found with
    | some u => u
    | none => { _id := freshId (s.users.map User._id), email := email }
  let s1 : Store :=
    match found with
    | some _ => s
    | none => { s with users := s.users ++ [user] }
  let verifyToken : VerifyToken :=
    { payload := { user := user, otp := otp }, issuedAt := now,
      signedWith := activationSec }
  if mailDelivered then (s1, .otpSent verifyToken)
  else (s1, .serverError "Failed to send email via Brevo API")

/-- Responses the `verifyUser` handler can send. -/
inductive VerifyResp where
  /-- `res.json({ message: "Logged in successfully", user, token })` -/
  | loggedIn (user : User) (token : SessionToken)
  /-- `res.status(400).json({ message: "Otp Expired" })` -/
  | otpExpired
  /-- `res.status(400).json({ message: "Wrong otp" })` -/
  | wrongOtp
  /-- the catch block: `res.status(500).json({ message: error.message })` -/
  | serverError (msg : String)
deriving DecidableEq, Repr

/-- Truthiness of the value `jwt.verify` returns: whenever it returns
instead of throwing, the result is a decoded payload object, and every JS
object is truthy, so the guard `if (!verify)` sees `false`. -/
def jsObjectIsTruthy (_ : VerifyPayload) : Bool := true

/-- `verifyUser` (userControllers.js): `jwt.verify` the token (a throw lands
in the catch block and answers 500 with the error message), then the dead
`if (!verify)` guard, then the OTP comparison, then sign the 5-day session
token. -/
def verifyUser (otp : Nat) (verifyToken : VerifyToken)
    (activationSec jwtSec : String) (now : Nat) : VerifyResp :=
  match jwtVerify verifyToken activationSec now with
  | .error msg => .serverError msg
  | .ok verify =>
    if ¬ jsObjectIsTruthy verify then .otpExpired
    else if verify.otp ≠ otp then .wrongOtp
    else .loggedIn verify.user
      { _id := verify.user._id, issuedAt := now, signedWith := jwtSec }

/-- Result of `Chat.findById(id)`: the first stored chat with that id
(`_id` is unique in the store, so also the only one), or `none`. -/
def findChatById (s : Store) (id : Nat) : Option Chat :=
  s.chats.find? (fun c => c._id == id)

/-- `createChat` (chat controller): create a chat owned by the caller and
return it; `latestMessage` starts unset. -/
def createChat (s : Store) (userId : Nat) (now : Nat) : Store × Chat :=
  let chat : Chat :=
    { _id := freshId (s.chats.map Chat._id), user := userId,
      latestMessage := none, createdAt := now }
  ({ s with chats := s.chats ++ [chat] }, chat)

/-- Ordering produced by `.sort({ createdAt: -1 })`: a chat comes before
another when its creation time is at least as recent (newest first). -/
def newestFirst (a b : Chat) : Prop := b.createdAt ≤ a.createdAt

instance : DecidableRel newestFirst := fun a b => Nat.decLe b.createdAt a.createdAt

instance : IsTotal Chat newestFirst :=
  ⟨fun a b => Nat.le_total b.createdAt a.createdAt⟩

instance : IsTrans Chat newestFirst :=
  ⟨fun _ _ _ hab hbc => Nat.le_trans hbc hab⟩

/-- `getAllChats` (chat controller): `Chat.find({ user: req.user._id })`
sorted by `createdAt` descending.  The store's sort is modelled by a sort
of the filtered list under `newestFirst`. -/
def getAllChats (s : Store) (userId : Nat) : List Chat :=
  List.insertionSort newestFirst (s.chats.filter (fun c => c.user == userId))

/-- Responses the `addConversation` handler can send.  `updatedChat` is the
value of `Chat.findByIdAndUpdate(..., { new: true })`, which is nullable. -/
inductive AddConvResp where
  /-- `res.json({ conversation, updatedChat })` -/
  | ok (conversation : Conversation) (updatedChat : Option Chat)
  /-- `res.status(404).json({ message: "No chat with this id" })` -/
  | notFound
deriving DecidableEq, Repr

/-- `addConversation` (chat controller): 404 when the chat id resolves to
nothing; otherwise create the Conversation record, overwrite the chat's
`latestMessage` with the question, and return both. -/
def addConversation (s : Store) (chatId : Nat) (question answer : String) :
    Store × AddConvResp :=
  match findChatById s chatId with
  | none => (s, .notFound)
  | some chat =>
    let conversation : Conversation :=
      { _id := freshId (s.conversations.map Conversation._id),
        chat := chat._id, question := question, answer := answer }
    let s1 : Store := { s with conversations := s.conversations ++ [conversation] }
    let s2 : Store :=
      { s1 with chats := s1.chats.map (fun c =>
          if c._id == chatId then { c with latestMessage := some question } else c) }
    (s2, .ok conversation (findChatById s2 chatId))

/-- Truthiness of the array `Conversation.find` resolves with: a JS array is
an object and every object is truthy, empty or not, so `if (!conversation)`
sees `false` on every query result. -/
def jsArrayIsTruthy (_ : List Conversation) : Bool := true

/-- Responses the `getConversation` handler can send. -/
inductive GetConvResp where
  /-- `res.json(conversation)` — the array of matching records -/
  | ok (conversation : List Conversation)
  /-- `res.status(404).json({ message: "No conversation with this id" })` -/
  | notFound
deriving DecidableEq, Repr

/-- `getConversation` (chat controller): `Conversation.find({ chat: id })`
followed by the `if (!conversation)` guard on the resulting array. -/
def getConversation (s : Store) (chatId : Nat) : GetConvResp :=
  let conversation := s.conversations.filter (fun c => c.chat == chatId)
  if ¬ jsArrayIsTruthy conversation then .notFound
  else .ok conversation

/-- Responses the `deleteChat` handler can send. -/
inductive DeleteResp where
  /-- `res.json({ message: "Chat Deleted" })` -/
  | deleted
  /-- `res.status(404).json({ message: "No chat with this id" })` -/
  | notFound
  /-- `res.status(403).json({ message: "Unauthorized" })` -/
  | unauthorized
deriving DecidableEq, Repr

/-- `deleteChat` (chat controller): 404 when the chat is absent, 403 when the
caller is not the owner, otherwise `chat.deleteOne()` removes exactly that
document — the first (and only) chat with that id — and nothing else. -/
def deleteChat (s : Store) (chatId : Nat) (callerId : Nat) : Store × DeleteResp :=
  match findChatById s chatId with
  | none => (s, .notFound)
  | some chat =>
    if chat.user ≠ callerId then (s, .unauthorized)
    else ({ s with chats := s.chats.eraseP (fun c => c._id == chatId) }, .deleted)

/-! Helper lemmas shared by the claim theorems. -/

/-- Decomposition of a successful `find?` together with the matching
`eraseP`: the found element is the first match in the list, and `eraseP`
removes exactly that occurrence. -/
theorem find?_eraseP_split {α : Type} (p : α → Bool) :
    ∀ (l : List α) (a : α), l.find? p = some a →
      ∃ l₁ l₂, l = l₁ ++ a :: l₂ ∧ List.eraseP p l = l₁ ++ l₂ := by
  intro l
  induction l with
  | nil => intro a h; simp [List.find?] at h
  | cons b t ih =>
    intro a h
    by_cases hb : p b = true
    · rw [List.find?_cons_of_pos _ hb] at h
      cases h
      exact ⟨[], t, rfl, List.eraseP_cons_of_pos hb⟩
    · rw [List.find?_cons_of_neg _ hb] at h
      obtain ⟨l₁, l₂, hl, he⟩ := ih a h
      exact ⟨b :: l₁, l₂, by simp [hl],
        by rw [List.eraseP_cons_of_neg hb, he, List.cons_append]⟩

/-- Re-querying the chat after `findByIdAndUpdate`: mapping the
latest-message update over the chat list and then finding by the same id
yields the originally found chat with its `latestMessage` overwritten. -/
theorem find?_map_latest (s : Store) (chatId : Nat) (q : String) (chat : Chat)
    (h : s.chats.find? (fun c => c._id == chatId) = some chat) :
    (s.chats.map (fun c =>
        if c._id == chatId then { c with latestMessage := some q } else c)).find?
      (fun c => c._id == chatId) = some { chat with latestMessage := some q } := by
  have hid : chat._id = chatId := by
    simpa using List.find?_some (p := fun c : Chat => c._id == chatId) h
  have hp : ((fun c : Chat => c._id == chatId) ∘
      (fun c => if c._id == chatId then { c with latestMessage := some q } else c)) =
      (fun c : Chat => c._id == chatId) := by
    funext c
    by_cases hc : c._id = chatId <;> simp [hc]
  rw [List.find?_map, hp, h]
  simp [Option.map, hid]

/-- Store component of a `loginUser` call: unchanged when the email was
already registered, extended by exactly the freshly created user when not;
the email-delivery outcome never changes the store. -/
theorem loginUser_store (s : Store) (e : String) (o n : Nat) (k : String)
    (m : Bool) :
    (loginUser s e o n k m).1 =
      match findOneUserByEmail s e with
      | some _ => s
      | none =>
        { s with users :=
            s.users ++ [{ _id := freshId (s.users.map User._id), email := e }] } := by
  cases hf : findOneUserByEmail s e <;> cases m <;> simp [loginUser, hf]

/-! Claim theorems. -/

/-- C1: the spec requires an invalid or expired verification token to
surface as the dedicated TokenExpiredOrInvalid failure, distinct from the
UnclassifiedServerError catch-all.  The code instead lets `jwt.verify`
throw straight into the catch block: every expired token is answered by
the generic 500 carrying the raw library message, and the dedicated
400 "Otp Expired" branch is unreachable on all inputs. -/
theorem verifyUser_expired_hits_generic_catchall
    (otp k : Nat) (tok : VerifyToken) (jwtSec : String) :
    verifyUser otp tok tok.signedWith jwtSec (tok.issuedAt + 300 + k) =
      .serverError "jwt expired" ∧
    ∀ o t a j n, verifyUser o t a j n ≠ VerifyResp.otpExpired := by
  constructor
  · simp [verifyUser, jwtVerify, Nat.le_add_right]
  · intro o t a j n
    unfold verifyUser jwtVerify
    by_cases h1 : t.signedWith ≠ a <;> by_cases h2 : t.issuedAt + 300 ≤ n <;>
      by_cases h3 : t.payload.otp ≠ o <;>
        simp [h1, h2, h3, jsObjectIsTruthy]

/-- C2: with a valid, unexpired verification token and a submitted passcode
differing from the embedded one, `verifyUser` answers exactly the dedicated
400 "Wrong otp" failure — not the expiry failure and not the generic 500 —
and issues no session token. -/
theorem verifyUser_otp_mismatch (otp : Nat) (tok : VerifyToken)
    (jwtSec : String) (now : Nat) (hfresh : now < tok.issuedAt + 300)
    (hne : tok.payload.otp ≠ otp) :
    verifyUser otp tok tok.signedWith jwtSec now = .wrongOtp := by
  simp [verifyUser, jwtVerify, Nat.not_le.mpr hfresh, jsObjectIsTruthy, hne]

/-- C2 witness: a concrete token embedding otp 222222, presented with otp
111111 well inside the validity window, is answered "Wrong otp". -/
theorem verifyUser_otp_mismatch_witness :
    verifyUser 111111
      { payload := { user := { _id := 7, email := "a@x.com" }, otp := 222222 },
        issuedAt := 0, signedWith := "activation" } "activation" "jwt" 10 =
      .wrongOtp :=
  verifyUser_otp_mismatch 111111
    { payload := { user := { _id := 7, email := "a@x.com" }, otp := 222222 },
      issuedAt := 0, signedWith := "activation" } "jwt" 10 (by decide) (by decide)

/-- C3: `addConversation` on a chat id that resolves to no Chat answers the
404 and returns the store unchanged — no Conversation record is created and
no Chat is modified. -/
theorem addConversation_notFound (s : Store) (chatId : Nat) (q a : String)
    (h : findChatById s chatId = none) :
    addConversation s chatId q a = (s, .notFound) := by
  simp [addConversation, h]

/-- C3 witness: adding to chat id 5 in a store holding only chat 4 answers
404 and leaves the store exactly as it was. -/
theorem addConversation_notFound_witness :
    addConversation
      { users := [], conversations := [],
        chats := [{ _id := 4, user := 1, latestMessage := none, createdAt := 0 }] }
      5 "q" "a" =
      ({ users := [], conversations := [],
         chats := [{ _id := 4, user := 1, latestMessage := none, createdAt := 0 }] },
       .notFound) :=
  addConversation_notFound _ 5 "q" "a" (by decide)

/-- C4: `getAllChats` returns exactly the caller's chats — a permutation of
the ownership filter, with membership characterised: a chat is listed iff it
is stored and owned by the caller — sorted by creation time descending. -/
theorem getAllChats_spec (s : Store) (u : Nat) :
    List.Sorted newestFirst (getAllChats s u) ∧
    (getAllChats s u).Perm (s.chats.filter (fun c => c.user == u)) ∧
    ∀ c, c ∈ getAllChats s u ↔ c ∈ s.chats ∧ c.user = u := by
  refine ⟨List.sorted_insertionSort _ _, List.perm_insertionSort _ _, ?_⟩
  intro c
  rw [getAllChats, List.mem_insertionSort, List.mem_filter]
  simp

/-- C5: `addConversation` on an existing Chat creates the Conversation
record holding the given question and answer linked to that chat, sets the
chat's `latestMessage` to the question both in the store and in the
returned updated chat, and returns both records. -/
theorem addConversation_ok (s : Store) (chatId : Nat) (q a : String)
    (chat : Chat) (h : findChatById s chatId = some chat) :
    addConversation s chatId q a =
      ({ users := s.users,
         chats := s.chats.map (fun c =>
           if c._id == chatId then { c with latestMessage := some q } else c),
         conversations := s.conversations ++
           [{ _id := freshId (s.conversations.map Conversation._id),
              chat := chatId, question := q, answer := a }] },
       .ok { _id := freshId (s.conversations.map Conversation._id),
             chat := chatId, question := q, answer := a }
         (some { chat with latestMessage := some q })) := by
  have h' : s.chats.find? (fun c => c._id == chatId) = some chat := h
  have hid : chat._id = chatId := by
    simpa using List.find?_some (p := fun c : Chat => c._id == chatId) h'
  have hmap := find?_map_latest s chatId q chat h'
  unfold addConversation
  rw [h]
  simp only [findChatById]
  rw [hmap, hid]

/-- C5 witness: appending the turn ("hi", "hello") to existing chat 4
creates conversation record 1 linked to chat 4, rewrites the chat's
`latestMessage` to "hi" in the store, and returns both records. -/
theorem addConversation_ok_witness :
    addConversation
      { users := [{ _id := 1, email := "a@x.com" }],
        chats := [{ _id := 4, user := 1, latestMessage := none, createdAt := 0 }],
        conversations := [] } 4 "hi" "hello" =
      ({ users := [{ _id := 1, email := "a@x.com" }],
         chats := [{ _id := 4, user := 1, latestMessage := some "hi", createdAt := 0 }],
         conversations := [{ _id := 1, chat := 4, question := "hi", answer := "hello" }] },
       .ok { _id := 1, chat := 4, question := "hi", answer := "hello" }
         (some { _id := 4, user := 1, latestMessage := some "hi", createdAt := 0 })) :=
  (addConversation_ok
    { users := [{ _id := 1, email := "a@x.com" }],
      chats := [{ _id := 4, user := 1, latestMessage := none, createdAt := 0 }],
      conversations := [] } 4 "hi" "hello"
    { _id := 4, user := 1, latestMessage := none, createdAt := 0 }
    (by decide)).trans (by decide)

/-- C6: `deleteChat` by a non-owner on an existing chat answers 403
Unauthorized and returns the store unchanged, the chat record still present
and unmodified in it. -/
theorem deleteChat_unauthorized (s : Store) (chatId callerId : Nat)
    (chat : Chat) (h : findChatById s chatId = some chat)
    (hown : chat.user ≠ callerId) :
    deleteChat s chatId callerId = (s, .unauthorized) ∧ chat ∈ s.chats :=
  ⟨by simp [deleteChat, h, hown], List.mem_of_find?_eq_some h⟩

/-- C6 witness: user 2 deleting chat 4 owned by user 1 is answered
Unauthorized, and the chat record is still in the store. -/
theorem deleteChat_unauthorized_witness :
    deleteChat
      { users := [], conversations := [],
        chats := [{ _id := 4, user := 1, latestMessage := none, createdAt := 0 }] }
      4 2 =
      ({ users := [], conversations := [],
         chats := [{ _id := 4, user := 1, latestMessage := none, createdAt := 0 }] },
       .unauthorized) ∧
    ({ _id := 4, user := 1, latestMessage := none, createdAt := 0 } : Chat) ∈
      ({ users := [], conversations := [],
         chats := [{ _id := 4, user := 1, latestMessage := none, createdAt := 0 }] } :
        Store).chats :=
  deleteChat_unauthorized _ 4 2 _ (by decide) (by decide)

/-- C7: `deleteChat` by the owner removes exactly the found Chat record:
the users and conversations collections are untouched — in particular the
deleted chat's conversations survive — and the chat list loses precisely
that one element. -/
theorem deleteChat_owner_frame (s : Store) (chatId callerId : Nat)
    (chat : Chat) (h : findChatById s chatId = some chat)
    (hown : chat.user = callerId) :
    (deleteChat s chatId callerId).2 = .deleted ∧
    (deleteChat s chatId callerId).1.users = s.users ∧
    (deleteChat s chatId callerId).1.conversations = s.conversations ∧
    ∃ l₁ l₂, s.chats = l₁ ++ chat :: l₂ ∧
      (deleteChat s chatId callerId).1.chats = l₁ ++ l₂ := by
  have hd : deleteChat s chatId callerId =
      ({ s with chats := s.chats.eraseP (fun c => c._id == chatId) }, .deleted) := by
    simp [deleteChat, h, hown]
  have h' : s.chats.find? (fun c => c._id == chatId) = some chat := h
  obtain ⟨l₁, l₂, hl, he⟩ :=
    find?_eraseP_split (fun c : Chat => c._id == chatId) s.chats chat h'
  rw [hd]
  exact ⟨rfl, rfl, rfl, l₁, l₂, hl, he⟩

/-- C7 witness: owner 1 deleting chat 4 removes only that chat; the other
chat, the user list and the conversation referencing chat 4 all remain. -/
theorem deleteChat_owner_frame_witness :
    (deleteChat
      { users := [{ _id := 1, email := "a@x.com" }],
        chats := [{ _id := 4, user := 1, latestMessage := none, createdAt := 0 },
                  { _id := 5, user := 2, latestMessage := none, createdAt := 1 }],
        conversations := [{ _id := 9, chat := 4, question := "q", answer := "a" }] }
      4 1).2 = .deleted ∧
    (deleteChat
      { users := [{ _id := 1, email := "a@x.com" }],
        chats := [{ _id := 4, user := 1, latestMessage := none, createdAt := 0 },
                  { _id := 5, user := 2, latestMessage := none, createdAt := 1 }],
        conversations := [{ _id := 9, chat := 4, question := "q", answer := "a" }] }
      4 1).1.users =
      ({ users := [{ _id := 1, email := "a@x.com" }],
         chats := [{ _id := 4, user := 1, latestMessage := none, createdAt := 0 },
                   { _id := 5, user := 2, latestMessage := none, createdAt := 1 }],
         conversations := [{ _id := 9, chat := 4, question := "q", answer := "a" }] } :
        Store).users ∧
    (deleteChat
      { users := [{ _id := 1, email := "a@x.com" }],
        chats := [{ _id := 4, user := 1, latestMessage := none, createdAt := 0 },
                  { _id := 5, user := 2, latestMessage := none, createdAt := 1 }],
        conversations := [{ _id := 9, chat := 4, question := "q", answer := "a" }] }
      4 1).1.conversations =
      ({ users := [{ _id := 1, email := "a@x.com" }],
         chats := [{ _id := 4, user := 1, latestMessage := none, createdAt := 0 },
                   { _id := 5, user := 2, latestMessage := none, createdAt := 1 }],
         conversations := [{ _id := 9, chat := 4, question := "q", answer := "a" }] } :
        Store).conversations ∧
    ∃ l₁ l₂,
      ({ users := [{ _id := 1, email := "a@x.com" }],
         chats := [{ _id := 4, user := 1, latestMessage := none, createdAt := 0 },
                   { _id := 5, user := 2, latestMessage := none, createdAt := 1 }],
         conversations := [{ _id := 9, chat := 4, question := "q", answer := "a" }] } :
        Store).chats =
        l₁ ++ { _id := 4, user := 1, latestMessage := none, createdAt := 0 } :: l₂ ∧
      (deleteChat
        { users := [{ _id := 1, email := "a@x.com" }],
          chats := [{ _id := 4, user := 1, latestMessage := none, createdAt := 0 },
                    { _id := 5, user := 2, latestMessage := none, createdAt := 1 }],
          conversations := [{ _id := 9, chat := 4, question := "q", answer := "a" }] }
        4 1).1.chats = l₁ ++ l₂ :=
  deleteChat_owner_frame _ 4 1
    { _id := 4, user := 1, latestMessage := none, createdAt := 0 }
    (by decide) (by decide)

/-- C8: `getConversation` always answers the full collection of
Conversation records referencing the given chat id — membership is exactly
"stored and referencing that chat" — an empty result is the empty array
rather than a 404, and no input ever produces the not-found response. -/
theorem getConversation_spec (s : Store) (chatId : Nat) :
    getConversation s chatId =
      .ok (s.conversations.filter (fun c => c.chat == chatId)) ∧
    (∀ c, c ∈ s.conversations.filter (fun c => c.chat == chatId) ↔
      c ∈ s.conversations ∧ c.chat = chatId) ∧
    getConversation
      { users := s.users, chats := s.chats, conversations := [] } chatId =
      .ok [] ∧
    ∀ t, getConversation s t ≠ .notFound := by
  refine ⟨by simp [getConversation, jsArrayIsTruthy], ?_,
    by simp [getConversation, jsArrayIsTruthy], ?_⟩
  · intro c
    rw [List.mem_filter]
    simp
  · intro t
    simp [getConversation, jsArrayIsTruthy]

/-- C9: calling `loginUser` twice in sequence with the same email creates
at most one User record — the second call leaves the user collection of the
first call's store unchanged, and the first call grows the collection by at
most one record. -/
theorem loginUser_idempotent_user_creation (s : Store) (e : String)
    (o₁ o₂ n₁ n₂ : Nat) (k₁ k₂ : String) (m₁ m₂ : Bool) :
    (loginUser (loginUser s e o₁ n₁ k₁ m₁).1 e o₂ n₂ k₂ m₂).1.users =
      (loginUser s e o₁ n₁ k₁ m₁).1.users ∧
    (loginUser s e o₁ n₁ k₁ m₁).1.users.length ≤ s.users.length + 1 := by
  cases hf : findOneUserByEmail s e with
  | some u =>
    have h1 : (loginUser s e o₁ n₁ k₁ m₁).1 = s := by
      rw [loginUser_store, hf]
    rw [h1]
    refine ⟨?_, Nat.le_succ _⟩
    rw [loginUser_store, hf]
  | none =>
    have h1 : (loginUser s e o₁ n₁ k₁ m₁).1 =
        { s with users :=
            s.users ++ [{ _id := freshId (s.users.map User._id), email := e }] } := by
      rw [loginUser_store, hf]
    have h2 : findOneUserByEmail (loginUser s e o₁ n₁ k₁ m₁).1 e =
        some { _id := freshId (s.users.map User._id), email := e } := by
      rw [h1]
      unfold findOneUserByEmail at hf ⊢
      simp [List.find?_append, hf, List.find?]
    constructor
    · rw [loginUser_store, h2]
    · rw [h1]
      simp

/-- C10: on an unseen email with failed email delivery, `loginUser` answers
the 500 failure carrying the message rethrown by `sendMail`, yet the User
record created before the send stays persisted — the creation is not rolled
back. -/
theorem loginUser_mail_failure_keeps_user (s : Store) (e : String)
    (o n : Nat) (k : String) (h : findOneUserByEmail s e = none) :
    loginUser s e o n k false =
      ({ s with users :=
          s.users ++ [{ _id := freshId (s.users.map User._id), email := e }] },
       .serverError "Failed to send email via Brevo API") := by
  simp [loginUser, h]

/-- C10 witness: logging in with an unseen email against the empty store
while email delivery fails answers the 500, and the fresh user record is in
the resulting store. -/
theorem loginUser_mail_failure_keeps_user_witness :
    loginUser { users := [], chats := [], conversations := [] }
      "a@x.com" 123456 0 "activation" false =
      ({ users := [{ _id := 1, email := "a@x.com" }], chats := [],
         conversations := [] },
       .serverError "Failed to send email via Brevo API") :=
  (loginUser_mail_failure_keeps_user
    { users := [], chats := [], conversations := [] }
    "a@x.com" 123456 0 "activation" (by decide)).trans (by decide)

end ChatServer
